import Mathlib

/-!
Verification of the token-counting dispatcher `num_tokens_from_messages`
from `rhbot/utils.py` (repository Nekosis/RHBot-v2).

The dispatcher selects one of three counting strategies by exact match on
the model identifier:
* `openai/gpt-4o`           — local BPE count over the message dicts;
* `anthropic/claude-3.7-sonnet` — one remote request to the Anthropic
  token-counting endpoint, fail-open to `0`;
* `microsoft/wizardlm-2-8x22b`  — chat-template render + encode, with a
  raw-content-sum fallback when the try-block raises.

External collaborators (the tiktoken encoder, the HuggingFace tokenizer,
and the network) are modelled as explicit function parameters; a Python
call that may raise is modelled with `Option`.  The dispatcher's observable
behaviour is a `CallResult`: the returned value or propagated exception,
the list of network requests issued, and the log entries written.
-/

/-- A chat message record: `{role: ..., content: ..., name?: ...}`. -/
structure Message where
  role : String
  content : String
  name : Option String := none
deriving Repr, DecidableEq

/-- The key/value pairs of the message dict, as iterated by
`message.items()` in the gpt-4o branch. -/
def Message.items (m : Message) : List (String × String) :=
  [("role", m.role), ("content", m.content)] ++
    (match m.name with
     | some n => [("name", n)]
     | none => [])

/-- The gpt-4o branch body (`_gpt4o_count`): start from 0; for each message
add 3 then walk its items, adding the encoded length of the `content` and
`name` values; finally add 3 for assistant priming.
`enc` stands for `ENCODING_GPT4O.encode`. -/
def gpt4oCount (enc : String → List Nat) (messages : List Message) : Nat :=
  (messages.foldl (fun num_tokens message =>
    message.items.foldl (fun acc kv =>
      if kv.1 = "content" then acc + (enc kv.2).length
      else if kv.1 = "name" then acc + (enc kv.2).length
      else acc) (num_tokens + 3)) 0) + 3

/-- The spec-side per-message cost: 3 framing tokens, plus the encoded
length of `content`, plus the encoded length of `name` when present. -/
def gpt4oMessageCost (enc : String → List Nat) (m : Message) : Nat :=
  3 + (enc m.content).length +
    (match m.name with
     | some n => (enc n).length
     | none => 0)

/-- The JSON payload posted to the Anthropic token-counting endpoint. -/
structure AnthropicRequest where
  model : String
  system : String
  messages : List (String × String)
deriving Repr, DecidableEq

/-- Outcome of the awaited network interaction inside the try-block:
either a response with a status and (for a 200 body) the parsed
`input_tokens` field — `none` standing for a body whose parsing or field
access raises — or an exception raised before a response was obtained. -/
inductive NetResult where
  | response (status : Nat) (inputTokens : Option Int)
  | exn
deriving Repr, DecidableEq

/-- Building the request payload in the claude-3.7-sonnet branch: one pass
over the messages appends system-role contents to `system_parts` and
user/assistant role/content pairs to `chat_messages`; other roles are
skipped.  The system string joins the parts with newlines. -/
def buildAnthropicRequest (messages : List Message) : AnthropicRequest :=
  let acc := messages.foldl
    (fun (acc : List String × List (String × String)) msg =>
      if msg.role = "system" then (acc.1 ++ [msg.content], acc.2)
      else if msg.role = "user" ∨ msg.role = "assistant" then
        (acc.1, acc.2 ++ [(msg.role, msg.content)])
      else acc) ([], [])
  { model := "claude-3-7-sonnet-20250219"
    system := String.intercalate "\n" acc.1
    messages := acc.2 }

/-- An exception crossing the function boundary: the explicit
`ValueError(f"Unsupported model: {model}")`, or a tokenizer `encode` call
raising outside any try-block (wizardlm fallback path). -/
inductive PyError where
  | valueError (msg : String)
  | encodeError
deriving Repr, DecidableEq

/-- Observable outcome of one call: the value returned (or the exception
propagated), the network requests issued, and the log entries written. -/
structure CallResult where
  result : Except PyError Int
  netRequests : List AnthropicRequest
  logs : List String
deriving Repr

/-- The claude-3.7-sonnet branch: build the payload, post it once, and
interpret the outcome.  Status 200 with a parsed body returns
`input_tokens` verbatim; a 200 body that fails to parse raises inside the
try-block and is caught (`"Anthropic API error:"`, return 0); any other
status logs `"Anthropic token count failed:"` and returns 0; an exception
before a response logs `"Anthropic API error:"` and returns 0. -/
def anthropicBranch (net : AnthropicRequest → NetResult)
    (messages : List Message) : CallResult :=
  let req := buildAnthropicRequest messages
  match net req with
  | .exn => ⟨.ok 0, [req], ["Anthropic API error:"]⟩
  | .response status inputTokens =>
    if status = 200 then
      match inputTokens with
      | some n => ⟨.ok n, [req], []⟩
      | none => ⟨.ok 0, [req], ["Anthropic API error:"]⟩
    else ⟨.ok 0, [req], ["Anthropic token count failed:"]⟩

/-- The fallback loop of the wizardlm branch: sum the encoded length of
each message's raw `content`; `none` when some encode call raises (the
exception then propagates, the loop being outside the try-block).
`encW` stands for `TOKENIZER_WIZARDLM.encode(·, add_special_tokens=False)`. -/
def wizardFallback (encW : String → Option (List Nat))
    (messages : List Message) : Option Nat :=
  messages.foldl
    (fun total msg => total.bind fun t =>
      (encW msg.content).map fun toks => t + toks.length)
    (some 0)

/-- The wizardlm-2-8x22b branch (`_wizardlm_count`): render the chat
template and encode the rendered string; if either step raises, fall back
to summing the raw-content token lengths.  `apply` stands for
`TOKENIZER_WIZARDLM.apply_chat_template(·, tokenize=False)`. -/
def wizardBranch (apply : List Message → Option String)
    (encW : String → Option (List Nat))
    (messages : List Message) : CallResult :=
  let tryResult : Option Nat :=
    match apply messages with
    | some formatted => (encW formatted).map List.length
    | none => none
  match tryResult with
  | some n => ⟨.ok n, [], []⟩
  | none =>
    match wizardFallback encW messages with
    | some total => ⟨.ok total, [], []⟩
    | none => ⟨.error .encodeError, [], []⟩

/-- The external collaborators of `num_tokens_from_messages`. -/
structure Env where
  enc4o : String → List Nat
  encW : String → Option (List Nat)
  apply : List Message → Option String
  net : AnthropicRequest → NetResult

/-- The dispatcher `num_tokens_from_messages(messages, model)`: exact
string match on the model identifier selects the strategy; any other
identifier raises `ValueError(f"Unsupported model: {model}")`. -/
def num_tokens_from_messages (env : Env) (messages : List Message)
    (model : String) : CallResult :=
  if model = "openai/gpt-4o" then
    ⟨.ok (gpt4oCount env.enc4o messages), [], []⟩
  else if model = "anthropic/claude-3.7-sonnet" then
    anthropicBranch env.net messages
  else if model = "microsoft/wizardlm-2-8x22b" then
    wizardBranch env.apply env.encW messages
  else
    ⟨.error (.valueError ("Unsupported model: " ++ model)), [], []⟩

/-! ## Helper lemmas -/

/-- The inner `items` fold of the gpt-4o branch adds exactly the
spec-side per-message cost (minus the 3 already added to the init). -/
theorem gpt4o_items_foldl (enc : String → List Nat) (m : Message) (a : Nat) :
    m.items.foldl (fun acc kv =>
      if kv.1 = "content" then acc + (enc kv.2).length
      else if kv.1 = "name" then acc + (enc kv.2).length
      else acc) (a + 3) = a + gpt4oMessageCost enc m := by
  cases h : m.name with
  | none =>
    simp [Message.items, gpt4oMessageCost, h]
    ring
  | some n =>
    simp [Message.items, gpt4oMessageCost, h]
    ring

/-- The outer fold of the gpt-4o branch, with a generalized accumulator,
is the accumulator plus the sum of per-message costs. -/
theorem gpt4o_foldl_eq (enc : String → List Nat) (messages : List Message)
    (a : Nat) :
    messages.foldl (fun num_tokens message =>
      message.items.foldl (fun acc kv =>
        if kv.1 = "content" then acc + (enc kv.2).length
        else if kv.1 = "name" then acc + (enc kv.2).length
        else acc) (num_tokens + 3)) a
      = a + (messages.map (gpt4oMessageCost enc)).sum := by
  induction messages generalizing a with
  | nil => simp
  | cons m rest ih =>
    simp only [List.foldl_cons, List.map_cons, List.sum_cons]
    rw [gpt4o_items_foldl, ih]
    ring

/-- Closed form of the gpt-4o branch: sum of per-message costs plus the
final 3-token priming overhead. -/
theorem gpt4oCount_eq_sum (enc : String → List Nat) (messages : List Message) :
    gpt4oCount enc messages
      = (messages.map (gpt4oMessageCost enc)).sum + 3 := by
  unfold gpt4oCount
  rw [gpt4o_foldl_eq]
  simp

/-- The accumulator pass of `buildAnthropicRequest`, characterized: it
appends the contents of system-role messages to the first component and
the role/content pairs of user/assistant messages to the second, in input
order. -/
theorem anthropic_foldl_eq (messages : List Message)
    (s : List String) (c : List (String × String)) :
    messages.foldl (fun acc msg =>
      if msg.role = "system" then (acc.1 ++ [msg.content], acc.2)
      else if msg.role = "user" ∨ msg.role = "assistant" then
        (acc.1, acc.2 ++ [(msg.role, msg.content)])
      else acc) (s, c)
      = (s ++ (messages.filter fun m => m.role == "system").map Message.content,
         c ++ (messages.filter fun m =>
            m.role == "user" || m.role == "assistant").map
           fun m => (m.role, m.content)) := by
  induction messages generalizing s c with
  | nil => simp
  | cons m rest ih =>
    by_cases h1 : m.role = "system"
    · simp only [List.foldl_cons, if_pos h1, List.filter_cons]
      rw [ih]
      simp [h1]
    · by_cases h2 : m.role = "user" ∨ m.role = "assistant"
      · simp only [List.foldl_cons, if_neg h1, if_pos h2, List.filter_cons]
        rw [ih]
        have hb : (m.role == "system") = false := by simp [h1]
        have hb2 : (m.role == "user" || m.role == "assistant") = true := by
          rcases h2 with h | h <;> simp [h]
        simp [hb, hb2]
      · simp only [List.foldl_cons, if_neg h1, if_neg h2, List.filter_cons]
        rw [ih]
        have hb : (m.role == "system") = false := by simp [h1]
        have hb2 : (m.role == "user" || m.role == "assistant") = false := by
          push_neg at h2
          simp [h2.1, h2.2]
        simp [hb, hb2]

/-- Closed form of the payload builder: the system string joins the
system-role contents (in order) with newlines, and the messages list is
the in-order role/content pairs of the user/assistant messages. -/
theorem buildAnthropicRequest_eq (messages : List Message) :
    buildAnthropicRequest messages
      = { model := "claude-3-7-sonnet-20250219"
          system := String.intercalate "\n"
            ((messages.filter fun m => m.role == "system").map Message.content)
          messages := (messages.filter fun m =>
              m.role == "user" || m.role == "assistant").map
            fun m => (m.role, m.content) } := by
  unfold buildAnthropicRequest
  rw [anthropic_foldl_eq]
  simp

/-- A network interaction that fails: an exception before any response, a
non-200 status, or a 200 body whose parsing/field access raises. -/
def NetResult.isFailure : NetResult → Prop
  | .exn => True
  | .response status inputTokens => status ≠ 200 ∨ inputTokens = none

/-- The wizardlm fallback sums the content token lengths when every encode
call succeeds. -/
theorem wizardFallback_eq (encW : String → Option (List Nat))
    (messages : List Message)
    (henc : ∀ m ∈ messages, (encW m.content).isSome) :
    wizardFallback encW messages
      = some ((messages.map fun m => ((encW m.content).getD []).length).sum) := by
  suffices h : ∀ t : Nat,
      messages.foldl
        (fun total msg => total.bind fun t =>
          (encW msg.content).map fun toks => t + toks.length)
        (some t)
      = some (t + (messages.map fun m => ((encW m.content).getD []).length).sum) by
    simpa [wizardFallback] using h 0
  induction messages with
  | nil => intro t; simp
  | cons m rest ih =>
    intro t
    have hm : (encW m.content).isSome := henc m (List.mem_cons_self m rest)
    obtain ⟨toks, htoks⟩ := Option.isSome_iff_exists.mp hm
    have ih' := ih (fun x hx => henc x (List.mem_cons_of_mem m hx))
    have hstep : ((some t).bind fun a =>
        (encW m.content).map fun toks => a + toks.length)
        = some (t + toks.length) := by
      rw [htoks]
      rfl
    simp only [List.foldl_cons, hstep, List.map_cons, List.sum_cons]
    rw [ih' (t + toks.length)]
    rw [htoks]
    simp [Nat.add_assoc]

/-- Each message costs at least its 3 framing tokens. -/
theorem three_le_gpt4oMessageCost (enc : String → List Nat) (m : Message) :
    3 ≤ gpt4oMessageCost enc m := by
  unfold gpt4oMessageCost
  cases m.name <;> omega

/-- The total per-message cost is at least 3 per message. -/
theorem gpt4o_sum_lower (enc : String → List Nat) (messages : List Message) :
    3 * messages.length ≤ (messages.map (gpt4oMessageCost enc)).sum := by
  induction messages with
  | nil => simp
  | cons m rest ih =>
    have := three_le_gpt4oMessageCost enc m
    simp only [List.map_cons, List.sum_cons, List.length_cons]
    omega

/-! ## Concrete environments for witnesses -/

/-- A toy total encoder: one token per character. -/
def testEnc (s : String) : List Nat := s.data.map Char.toNat

/-- A concrete environment: total encoders, a chat-template renderer that
raises, and a network answering status 200 with `input_tokens = 42`. -/
def testEnv : Env where
  enc4o := testEnc
  encW := fun s => some (testEnc s)
  apply := fun _ => none
  net := fun _ => .response 200 (some 42)

/-- A concrete environment whose network answers status 500. -/
def test500Env : Env :=
  { testEnv with net := fun _ => .response 500 (some 7) }

/-- A concrete environment whose network reports a negative
`input_tokens` value. -/
def negEnv : Env :=
  { testEnv with net := fun _ => .response 200 (some (-1)) }

/-! ## Claim theorems -/

/-- C1: counting with model `openai/gpt-4o` returns the sum, over all
messages, of a fixed per-message overhead of 3 tokens plus the encoded
token length of the `content` field plus the encoded token length of the
`name` field when present, plus a final 3-token assistant-priming
overhead. -/
theorem gpt4o_returns_overhead_plus_content_sum (env : Env)
    (messages : List Message) :
    (num_tokens_from_messages env messages "openai/gpt-4o").result
      = .ok (((messages.map (gpt4oMessageCost env.enc4o)).sum + 3 : Nat) : Int) := by
  simp [num_tokens_from_messages, gpt4oCount_eq_sum]

/-- C2: on a status-200 response whose body reports `input_tokens = n`,
the claude-3.7-sonnet branch returns `n` verbatim. -/
theorem anthropic_ok_returns_input_tokens_verbatim (env : Env)
    (messages : List Message) (n : Int)
    (h : env.net (buildAnthropicRequest messages) = .response 200 (some n)) :
    (num_tokens_from_messages env messages
      "anthropic/claude-3.7-sonnet").result = .ok n := by
  simp [num_tokens_from_messages, anthropicBranch, h]

theorem anthropic_ok_verbatim_witness :
    (num_tokens_from_messages testEnv [] "anthropic/claude-3.7-sonnet").result
      = .ok 42 :=
  anthropic_ok_returns_input_tokens_verbatim testEnv [] 42 rfl

/-- C3: any non-OK status, parse failure, or exception during the remote
request makes the claude-3.7-sonnet branch return 0 with a log entry
written, and no exception propagates (the result is `.ok`). -/
theorem anthropic_failure_returns_zero_and_logs (env : Env)
    (messages : List Message)
    (h : (env.net (buildAnthropicRequest messages)).isFailure) :
    (num_tokens_from_messages env messages
        "anthropic/claude-3.7-sonnet").result = .ok 0 ∧
    (num_tokens_from_messages env messages
        "anthropic/claude-3.7-sonnet").logs ≠ [] := by
  cases hres : env.net (buildAnthropicRequest messages) with
  | exn => simp [num_tokens_from_messages, anthropicBranch, hres]
  | response status toks =>
    rw [hres] at h
    simp only [NetResult.isFailure] at h
    rcases h with hs | ht
    · simp [num_tokens_from_messages, anthropicBranch, hres, hs]
    · subst ht
      by_cases hs : status = 200 <;>
        simp [num_tokens_from_messages, anthropicBranch, hres, hs]

theorem anthropic_failure_witness :
    (NetResult.response 500 (some 7)).isFailure ∧
    ((num_tokens_from_messages test500Env [] "anthropic/claude-3.7-sonnet").result
        = .ok 0 ∧
     (num_tokens_from_messages test500Env [] "anthropic/claude-3.7-sonnet").logs
        ≠ []) :=
  ⟨Or.inl (by decide),
   anthropic_failure_returns_zero_and_logs test500Env [] (Or.inl (by decide))⟩

/-- C4: any model identifier other than the three recognized ones makes
the dispatcher raise `ValueError` immediately: the result is the error,
no network request is issued, and no log entry is written. -/
theorem unsupported_model_raises_immediately (env : Env)
    (messages : List Message) (model : String)
    (h1 : model ≠ "openai/gpt-4o")
    (h2 : model ≠ "anthropic/claude-3.7-sonnet")
    (h3 : model ≠ "microsoft/wizardlm-2-8x22b") :
    num_tokens_from_messages env messages model
      = ⟨.error (.valueError ("Unsupported model: " ++ model)), [], []⟩ := by
  simp [num_tokens_from_messages, h1, h2, h3]

theorem unsupported_model_witness :
    num_tokens_from_messages testEnv [] "unknown/model"
      = ⟨.error (.valueError "Unsupported model: unknown/model"), [], []⟩ :=
  unsupported_model_raises_immediately testEnv [] "unknown/model"
    (by decide) (by decide) (by decide)

/-- C5: when rendering the chat template (or encoding the rendered string)
raises and every raw-content encode succeeds, the wizardlm branch returns
the sum of the content token lengths, with no exception, no network
request, and no log entry. -/
theorem wizardlm_fallback_returns_content_sum (env : Env)
    (messages : List Message)
    (hfail : env.apply messages = none ∨
      ∃ s, env.apply messages = some s ∧ env.encW s = none)
    (henc : ∀ m ∈ messages, (env.encW m.content).isSome) :
    num_tokens_from_messages env messages "microsoft/wizardlm-2-8x22b"
      = ⟨.ok (((messages.map fun m =>
          ((env.encW m.content).getD []).length).sum : Nat) : Int), [], []⟩ := by
  have hfb := wizardFallback_eq env.encW messages henc
  rcases hfail with ha | ⟨s, ha, he⟩
  · simp [num_tokens_from_messages, wizardBranch, ha, hfb]
  · simp [num_tokens_from_messages, wizardBranch, ha, he, hfb]

theorem wizardlm_fallback_witness :
    num_tokens_from_messages testEnv [⟨"user", "ab", none⟩]
        "microsoft/wizardlm-2-8x22b"
      = ⟨.ok 2, [], []⟩ :=
  wizardlm_fallback_returns_content_sum testEnv [⟨"user", "ab", none⟩]
    (Or.inl rfl) (by decide)

/-- C6: the request payload's system string concatenates, in input order
with newline separators, the content of every system-role message, and
the payload's messages list is exactly the role/content pairs of the
user- and assistant-role messages in their original relative order. -/
theorem anthropic_payload_partitions_messages (messages : List Message) :
    (buildAnthropicRequest messages).system
      = String.intercalate "\n"
          ((messages.filter fun m => m.role == "system").map Message.content) ∧
    (buildAnthropicRequest messages).messages
      = (messages.filter fun m => m.role == "user" || m.role == "assistant").map
          (fun m => (m.role, m.content)) := by
  rw [buildAnthropicRequest_eq]
  exact ⟨rfl, rfl⟩

/-- C7: for every non-empty message sequence the gpt-4o count is at least
`3*(len+1)`, and (given that the encoder maps the empty string to no
tokens, as the o200k BPE does) the single message
`{role: "user", content: ""}` counts exactly 6. -/
theorem gpt4o_lower_bound_and_empty_user_message (enc : String → List Nat)
    (messages : List Message) (h : messages ≠ []) :
    3 * (messages.length + 1) ≤ gpt4oCount enc messages ∧
    (enc "" = [] →
      gpt4oCount enc [{ role := "user", content := "", name := none }] = 6) := by
  constructor
  · rw [gpt4oCount_eq_sum]
    have := gpt4o_sum_lower enc messages
    omega
  · intro he
    simp [gpt4oCount_eq_sum, gpt4oMessageCost, he]

theorem gpt4o_lower_bound_witness :
    ([({ role := "user", content := "", name := none } : Message)] ≠ []) ∧
    (3 * (List.length [({ role := "user", content := "", name := none } : Message)] + 1)
        ≤ gpt4oCount testEnc [{ role := "user", content := "", name := none }] ∧
     (testEnc "" = [] →
        gpt4oCount testEnc [{ role := "user", content := "", name := none }] = 6)) :=
  ⟨by decide,
   gpt4o_lower_bound_and_empty_user_message testEnc
     [{ role := "user", content := "", name := none }] (by decide)⟩

/-- C8: the gpt-4o count is invariant under any permutation of the input
message sequence. -/
theorem gpt4o_count_perm_invariant (env : Env)
    (messages1 messages2 : List Message) (h : messages1.Perm messages2) :
    num_tokens_from_messages env messages1 "openai/gpt-4o"
      = num_tokens_from_messages env messages2 "openai/gpt-4o" := by
  have hs := (h.map (gpt4oMessageCost env.enc4o)).sum_eq
  simp [num_tokens_from_messages, gpt4oCount_eq_sum, hs]

theorem gpt4o_perm_witness :
    ([(⟨"user", "a", none⟩ : Message), ⟨"assistant", "b", none⟩].Perm
       [⟨"assistant", "b", none⟩, ⟨"user", "a", none⟩]) ∧
    num_tokens_from_messages testEnv
        [⟨"user", "a", none⟩, ⟨"assistant", "b", none⟩] "openai/gpt-4o"
      = num_tokens_from_messages testEnv
        [⟨"assistant", "b", none⟩, ⟨"user", "a", none⟩] "openai/gpt-4o" :=
  ⟨by decide,
   gpt4o_count_perm_invariant testEnv _ _ (by decide)⟩

/-- C9 counterexample: the remote branch returns the backend-reported
`input_tokens` verbatim and never checks its sign, so a backend report of
-1 makes a recognized-model, non-raising invocation return a negative
count. -/
theorem anthropic_negative_counterexample :
    (num_tokens_from_messages negEnv [] "anthropic/claude-3.7-sonnet").result
      = .ok (-1) ∧ (-1 : Int) < 0 :=
  ⟨rfl, by decide⟩

/-- Every `.ok` result of the claude-3.7-sonnet branch is non-negative
provided the backend only reports non-negative `input_tokens`. -/
theorem anthropicBranch_result_nonneg (net : AnthropicRequest → NetResult)
    (messages : List Message) (k : Int)
    (hnet : ∀ req n, net req = .response 200 (some n) → 0 ≤ n)
    (h : (anthropicBranch net messages).result = .ok k) : 0 ≤ k := by
  simp only [anthropicBranch] at h
  cases hres : net (buildAnthropicRequest messages) with
  | exn =>
    rw [hres] at h
    simp at h
    omega
  | response status toks =>
    rw [hres] at h
    by_cases hs : status = 200
    · subst hs
      cases toks with
      | none =>
        simp at h
        omega
      | some n =>
        simp at h
        have := hnet _ n hres
        omega
    · simp [hs] at h
      omega

/-- Every `.ok` result of the wizardlm branch is non-negative. -/
theorem wizardBranch_result_nonneg (ap : List Message → Option String)
    (encW : String → Option (List Nat)) (messages : List Message) (k : Int)
    (h : (wizardBranch ap encW messages).result = .ok k) : 0 ≤ k := by
  simp only [wizardBranch] at h
  cases htry : (match ap messages with
      | some formatted => (encW formatted).map List.length
      | none => none : Option Nat) with
  | some n =>
    rw [htry] at h
    simp at h
    omega
  | none =>
    rw [htry] at h
    cases hfb : wizardFallback encW messages with
    | some total =>
      rw [hfb] at h
      simp at h
      omega
    | none =>
      rw [hfb] at h
      simp at h

/-- C9 (amended): for every invocation with a recognized model that
returns a value, the value is non-negative, provided the backend only
reports non-negative `input_tokens` values (the code returns the remote
value verbatim, so nothing in the code itself enforces its sign). -/
theorem count_nonneg_when_backend_nonneg (env : Env)
    (messages : List Message) (model : String) (k : Int)
    (hnet : ∀ req n, env.net req = .response 200 (some n) → 0 ≤ n)
    (h : (num_tokens_from_messages env messages model).result = .ok k) :
    0 ≤ k := by
  unfold num_tokens_from_messages at h
  split_ifs at h with h1 h2 h3
  · simp at h
    omega
  · exact anthropicBranch_result_nonneg env.net messages k hnet h
  · exact wizardBranch_result_nonneg env.apply env.encW messages k h

theorem count_nonneg_witness :
    (0 : Int) ≤ 42 ∧
    (num_tokens_from_messages testEnv [] "anthropic/claude-3.7-sonnet").result
      = .ok 42 := by
  refine ⟨count_nonneg_when_backend_nonneg testEnv []
    "anthropic/claude-3.7-sonnet" 42 ?_ rfl, rfl⟩
  intro req n hr
  simp [testEnv] at hr
  omega

/-- C10: a message whose role is none of system/user/assistant is
excluded from the request payload, so it cannot affect the
claude-3.7-sonnet branch's returned count. -/
theorem anthropic_unknown_role_excluded (env : Env)
    (pre post : List Message) (m : Message)
    (h1 : m.role ≠ "system") (h2 : m.role ≠ "user")
    (h3 : m.role ≠ "assistant") :
    buildAnthropicRequest (pre ++ m :: post)
      = buildAnthropicRequest (pre ++ post) ∧
    num_tokens_from_messages env (pre ++ m :: post)
        "anthropic/claude-3.7-sonnet"
      = num_tokens_from_messages env (pre ++ post)
        "anthropic/claude-3.7-sonnet" := by
  have hs : (m.role == "system") = false := by simp [h1]
  have hu : (m.role == "user" || m.role == "assistant") = false := by
    simp [h2, h3]
  have hb : buildAnthropicRequest (pre ++ m :: post)
      = buildAnthropicRequest (pre ++ post) := by
    rw [buildAnthropicRequest_eq, buildAnthropicRequest_eq]
    simp [List.filter_append, List.filter_cons, hs, hu]
  have hbr : anthropicBranch env.net (pre ++ m :: post)
      = anthropicBranch env.net (pre ++ post) := by
    unfold anthropicBranch
    rw [hb]
  exact ⟨hb, by simp [num_tokens_from_messages, hbr]⟩

theorem anthropic_unknown_role_witness :
    buildAnthropicRequest [⟨"user", "hi", none⟩, ⟨"tool", "x", none⟩]
      = buildAnthropicRequest [⟨"user", "hi", none⟩] ∧
    num_tokens_from_messages testEnv
        [⟨"user", "hi", none⟩, ⟨"tool", "x", none⟩]
        "anthropic/claude-3.7-sonnet"
      = num_tokens_from_messages testEnv [⟨"user", "hi", none⟩]
        "anthropic/claude-3.7-sonnet" :=
  anthropic_unknown_role_excluded testEnv [⟨"user", "hi", none⟩] []
    ⟨"tool", "x", none⟩ (by decide) (by decide) (by decide)
